import Mathlib

/-!
Verification of the CT log-statement verifier (`ct/crypto/verify.py`).

The data model and operations below are a shallow embedding of
`LogVerifier` and its methods.  Byte strings are `List Nat` (each entry a
byte value), machine integers are `Nat` with explicit reductions modulo
`2 ^ 64` where the packing format truncates, and Python exceptions are the
`Except` monad over an error-kind type.  External collaborators (the PEM
decoder, the `ecdsa` library's key/signature routines, and the Merkle
consistency-proof verifier) are taken as function parameters, since the
verifier only supplies their arguments and propagates their outcomes.
-/

namespace CT

/-- Error kinds raised by the verifier and its collaborators, following the
exception classes used by `ct/crypto/verify.py`:
`error.UnsupportedAlgorithmError`, `pem.PemError`, `error.EncodingError`,
`error.SignatureError`, `error.ConsistencyError`, `error.ProofError`,
the builtin `ValueError` (the spec's InvalidArgument kind), and the builtin
`RuntimeError`. -/
inductive VError where
  | UnsupportedAlgorithmError
  | PemError
  | EncodingError
  | SignatureError
  | ConsistencyError
  | ProofError
  | ValueError
  | RuntimeError
  deriving DecidableEq, Repr

/-- An STH response record (`client_pb2.SthResponse`): the fields
`verify.py` reads.  `timestamp` and `tree_size` are uint64 proto fields;
`sha256_root_hash` and `tree_head_signature` are byte strings. -/
structure SthResponse where
  timestamp : Nat
  tree_size : Nat
  sha256_root_hash : List Nat
  tree_head_signature : List Nat
  deriving DecidableEq, Repr

/-- Modelled from the spec: `ct_pb2.V1`, the constant tag for "version 1"
(`ct.proto` is not under `src/`; the numeric value is the RFC 6962 wire
value and is immaterial to the claims, which name the tag symbolically). -/
def V1 : Nat := 0

/-- Modelled from the spec: `ct_pb2.TREE_HEAD`, the constant tag for
"tree head" (`ct.proto` is not under `src/`). -/
def TREE_HEAD : Nat := 1

/-- Modelled from the spec: `ct_pb2.DigitallySigned.SHA256`, the SHA-256
hash-algorithm tag, `0x04` per the spec's byte layout. -/
def DS_SHA256 : Nat := 4

/-- Modelled from the spec: `ct_pb2.DigitallySigned.ECDSA`, the ECDSA
signature-algorithm tag, `0x03` per the spec's byte layout. -/
def DS_ECDSA : Nat := 3

/-- Modelled from the spec: `client_pb2.KeyInfo.ECDSA`, the declared
elliptic-curve key-type tag (the numeric value is immaterial to the
claims). -/
def KeyInfoECDSA : Nat := 1

/-- `k` big-endian bytes of `n` (the value packed is `n % 2 ^ (8 * k)`, the
view a fixed-width packing gives of the uint64 proto fields). -/
def be_bytes (k n : Nat) : List Nat :=
  (List.range k).map (fun i => n / 256 ^ (k - 1 - i) % 256)

/-- The `32s` conversion of `struct.pack`: exactly 32 bytes, truncated or
zero-padded. -/
def pack32s (s : List Nat) : List Nat :=
  s.take 32 ++ List.replicate (32 - s.length) 0

/-- `LogVerifier._encode_sth_input`: checks the root hash is exactly 32
bytes, then packs `>BBQQ32s` over the version tag, tree-head tag,
timestamp, tree size and root hash. -/
def encode_sth_input (sth_response : SthResponse) : Except VError (List Nat) :=
  if sth_response.sha256_root_hash.length ≠ 32 then
    .error .EncodingError
  else
    .ok ([V1, TREE_HEAD] ++ be_bytes 8 sth_response.timestamp ++
      be_bytes 8 sth_response.tree_size ++ pack32s sth_response.sha256_root_hash)

/-- `LogVerifier._decode_signature`: reads a 2-byte algorithm pair (must be
the SHA-256 and ECDSA tags), a 2-byte big-endian length, then all remaining
bytes, which must number exactly the declared length; returns the inner
signature bytes. -/
def decode_signature (signature : List Nat) : Except VError (List Nat) :=
  let sig_head := signature.take 2
  if sig_head.length ≠ 2 then
    .error .EncodingError
  else
    let hash_algo := sig_head.headD 0
    let sig_algo := sig_head.getD 1 0
    if hash_algo ≠ DS_SHA256 ∨ sig_algo ≠ DS_ECDSA then
      .error .EncodingError
    else
      let len_head := (signature.drop 2).take 2
      if len_head.length ≠ 2 then
        .error .EncodingError
      else
        let sig_length := 256 * len_head.headD 0 + len_head.getD 1 0
        let remaining := signature.drop 4
        if remaining.length ≠ sig_length then
          .error .EncodingError
        else
          .ok remaining

/-- Modelled from the spec: the `error.returns_true_or_raises` decorator
(`ct/crypto/error.py` is not under `src/`).  Per the spec, success "is
communicated uniformly as success with no payload" and no code path may
"return a false-equivalent value": the decorator passes `True` through,
propagates raised errors, and converts any other return value into a
raised error so callers cannot ignore a falsy result. -/
def returns_true_or_raises (r : Except VError Bool) : Except VError Bool :=
  match r with
  | .ok true => .ok true
  | .ok false => .error .RuntimeError
  | .error e => .error e

/-- The undecorated body of
`LogVerifier.verify_sth_temporal_consistency`. -/
def temporal_consistency_body (old_sth new_sth : SthResponse) :
    Except VError Bool :=
  if old_sth.timestamp > new_sth.timestamp then
    .error .ValueError
  else if old_sth.timestamp = new_sth.timestamp ∧
      old_sth.tree_size ≠ new_sth.tree_size then
    .error .ConsistencyError
  else if old_sth.timestamp < new_sth.timestamp ∧
      old_sth.tree_size > new_sth.tree_size then
    .error .ConsistencyError
  else
    .ok true

/-- `LogVerifier.verify_sth_temporal_consistency` (decorated). -/
def verify_sth_temporal_consistency (old_sth new_sth : SthResponse) :
    Except VError Bool :=
  returns_true_or_raises (temporal_consistency_body old_sth new_sth)

/-- The type of the bound key's signature-verification routine
(`ecdsa.VerifyingKey.verify` wrapped by `LogVerifier._verify`): canonical
input and decoded signature bytes to success or a raised error. -/
abbrev EcdsaVerify := List Nat → List Nat → Except VError Bool

/-- The type of the external Merkle consistency-proof verifier
(`MerkleVerifier.verify_tree_consistency`). -/
abbrev MerkleVerify :=
  Nat → Nat → List Nat → List Nat → List (List Nat) → Except VError Bool

/-- `LogVerifier.verify_sth` (decorated): encode the canonical input,
decode the signature container, then verify cryptographically via the
bound key's routine. -/
def verify_sth (pubkey_verify : EcdsaVerify) (sth_response : SthResponse) :
    Except VError Bool :=
  returns_true_or_raises (
    match encode_sth_input sth_response with
    | .error e => .error e
    | .ok signature_input =>
      match decode_signature sth_response.tree_head_signature with
      | .error e => .error e
      | .ok signature => pubkey_verify signature_input signature)

/-- `LogVerifier.verify_sth_consistency` (decorated): temporal consistency
first, then the external Merkle verifier on
`(old.tree_size, new.tree_size, old.root_hash, new.root_hash, proof)`,
then `True`. -/
def verify_sth_consistency (merkle_verify : MerkleVerify)
    (old_sth new_sth : SthResponse) (proof : List (List Nat)) :
    Except VError Bool :=
  returns_true_or_raises (
    match verify_sth_temporal_consistency old_sth new_sth with
    | .error e => .error e
    | .ok _ =>
      match merkle_verify old_sth.tree_size new_sth.tree_size
          old_sth.sha256_root_hash new_sth.sha256_root_hash proof with
      | .error e => .error e
      | .ok _ => .ok true)

/-- A stub Merkle verifier that always reports failure with ProofError. -/
def alwaysFailMerkle : MerkleVerify :=
  fun _ _ _ _ _ => .error .ProofError

/-- `LogVerifier.__init__`: rejects non-ECDSA key types with
UnsupportedAlgorithmError before any decoding; then decodes the textual
key block via `pem.from_pem` (whose failures propagate); then parses the
DER bytes via `ecdsa.VerifyingKey.from_der`, converting its
`UnexpectedDER` failure into a raised `error.EncodingError`.  The two
external decoders are parameters. -/
def LogVerifier.init (key_type : Nat) (pem_key : List Nat)
    (from_pem : List Nat → Except VError (List Nat))
    (from_der : List Nat → Except VError Unit) : Except VError Unit :=
  if key_type ≠ KeyInfoECDSA then
    .error .UnsupportedAlgorithmError
  else
    match from_pem pem_key with
    | .error e => .error e
    | .ok der =>
      match from_der der with
      | .error _ => .error .EncodingError
      | .ok _ => .ok ()

/-- Modelled from the spec: the KeyDecodeError kind of the spec's error
taxonomy ("kinds, not concrete types") — a malformed textual/binary key
block at construction time.  It covers the PEM decoder's `PemError` and
the `EncodingError` the constructor raises for invalid public-key DER. -/
def isKeyDecodeError : VError → Bool
  | .PemError => true
  | .EncodingError => true
  | _ => false

/-- Characterization of the decorated temporal-consistency check: the body
returns `True` on every non-raising path, so the decorator is transparent
and the outcome is the body's case analysis. -/
lemma temporal_consistency_eq (old_sth new_sth : SthResponse) :
    verify_sth_temporal_consistency old_sth new_sth =
      if old_sth.timestamp > new_sth.timestamp then .error .ValueError
      else if old_sth.timestamp = new_sth.timestamp ∧
          old_sth.tree_size ≠ new_sth.tree_size then .error .ConsistencyError
      else if old_sth.timestamp < new_sth.timestamp ∧
          old_sth.tree_size > new_sth.tree_size then .error .ConsistencyError
      else .ok true := by
  unfold verify_sth_temporal_consistency temporal_consistency_body
  split_ifs <;> rfl

/-- C1: `verify_sth_temporal_consistency(old, new)` implements exactly this
case analysis: `old.timestamp > new.timestamp` fails with the
invalid-argument kind (`ValueError`) for any tree sizes; equal timestamps
with equal tree sizes succeed; equal timestamps with different tree sizes
fail with ConsistencyError; `old.timestamp < new.timestamp` with
`old.tree_size > new.tree_size` fails with ConsistencyError; and
`old.timestamp < new.timestamp` with `old.tree_size ≤ new.tree_size`
succeeds. -/
theorem C1_temporal_case_analysis (old_sth new_sth : SthResponse) :
    (old_sth.timestamp > new_sth.timestamp →
      verify_sth_temporal_consistency old_sth new_sth = .error .ValueError) ∧
    (old_sth.timestamp = new_sth.timestamp →
      old_sth.tree_size = new_sth.tree_size →
      verify_sth_temporal_consistency old_sth new_sth = .ok true) ∧
    (old_sth.timestamp = new_sth.timestamp →
      old_sth.tree_size ≠ new_sth.tree_size →
      verify_sth_temporal_consistency old_sth new_sth =
        .error .ConsistencyError) ∧
    (old_sth.timestamp < new_sth.timestamp →
      old_sth.tree_size > new_sth.tree_size →
      verify_sth_temporal_consistency old_sth new_sth =
        .error .ConsistencyError) ∧
    (old_sth.timestamp < new_sth.timestamp →
      old_sth.tree_size ≤ new_sth.tree_size →
      verify_sth_temporal_consistency old_sth new_sth = .ok true) := by
  rw [temporal_consistency_eq]
  refine ⟨?_, ?_, ?_, ?_, ?_⟩ <;> intros <;> split_ifs <;>
    first | rfl | omega

/-- Witness for C1 at concrete records: timestamps 5 and 3 trigger the
invalid-argument branch. -/
theorem C1_temporal_case_analysis_witness :
    verify_sth_temporal_consistency ⟨5, 10, [], []⟩ ⟨3, 20, [], []⟩ =
      .error .ValueError :=
  (C1_temporal_case_analysis ⟨5, 10, [], []⟩ ⟨3, 20, [], []⟩).1 (by decide)

/-- C8: for two STH records with equal timestamps and different tree
sizes, the temporal-consistency check fails with ConsistencyError in both
argument orders. -/
theorem C8_equal_timestamp_order_independent (a a' : SthResponse)
    (hts : a.timestamp = a'.timestamp) (hsz : a.tree_size ≠ a'.tree_size) :
    verify_sth_temporal_consistency a a' = .error .ConsistencyError ∧
    verify_sth_temporal_consistency a' a = .error .ConsistencyError := by
  rw [temporal_consistency_eq, temporal_consistency_eq]
  constructor <;> split_ifs <;> first | rfl | omega

/-- Witness for C8: STHs with timestamp 1000 and tree sizes 5 and 6 fail
both ways with ConsistencyError. -/
theorem C8_equal_timestamp_order_independent_witness :
    verify_sth_temporal_consistency ⟨1000, 5, [], []⟩ ⟨1000, 6, [], []⟩ =
      .error .ConsistencyError ∧
    verify_sth_temporal_consistency ⟨1000, 6, [], []⟩ ⟨1000, 5, [], []⟩ =
      .error .ConsistencyError :=
  C8_equal_timestamp_order_independent ⟨1000, 5, [], []⟩ ⟨1000, 6, [], []⟩
    (by decide) (by decide)

/-- C9: the temporal-consistency outcome depends only on the timestamp and
tree-size fields of the two records — any two argument pairs agreeing on
those four values get the identical outcome — and in particular two STHs
with equal timestamps, equal tree sizes and different root hashes pass. -/
theorem C9_depends_only_on_timestamp_and_size
    (old_sth new_sth old_sth' new_sth' : SthResponse)
    (h1 : old_sth.timestamp = old_sth'.timestamp)
    (h2 : old_sth.tree_size = old_sth'.tree_size)
    (h3 : new_sth.timestamp = new_sth'.timestamp)
    (h4 : new_sth.tree_size = new_sth'.tree_size) :
    verify_sth_temporal_consistency old_sth new_sth =
      verify_sth_temporal_consistency old_sth' new_sth' ∧
    (old_sth.timestamp = new_sth.timestamp →
      old_sth.tree_size = new_sth.tree_size →
      verify_sth_temporal_consistency old_sth new_sth = .ok true) := by
  rw [temporal_consistency_eq, temporal_consistency_eq, h1, h2, h3, h4]
  refine ⟨rfl, ?_⟩
  intro h5 h6
  split_ifs <;> first | rfl | omega

/-- Witness for C9: two pairs agreeing on timestamps and sizes but with
different root hashes and signatures get the same outcome, and the
equal-timestamp equal-size pair passes. -/
theorem C9_depends_only_on_timestamp_and_size_witness :
    verify_sth_temporal_consistency ⟨7, 4, [0], [1]⟩ ⟨7, 4, [2], [3]⟩ =
      verify_sth_temporal_consistency ⟨7, 4, [9], [8]⟩ ⟨7, 4, [7], [6]⟩ ∧
    verify_sth_temporal_consistency ⟨7, 4, [0], [1]⟩ ⟨7, 4, [2], [3]⟩ =
      .ok true := by
  have h := C9_depends_only_on_timestamp_and_size
    ⟨7, 4, [0], [1]⟩ ⟨7, 4, [2], [3]⟩ ⟨7, 4, [9], [8]⟩ ⟨7, 4, [7], [6]⟩
    rfl rfl rfl rfl
  exact ⟨h.1, h.2 rfl rfl⟩

/-- C2: `decode_signature` is an exact, strict parser: a well-tagged input
whose big-endian uint16 length equals the payload length decodes to the
payload unchanged; fewer than 2 bytes fail with EncodingError; wrong
leading tags fail with EncodingError; a declared length differing from the
count of remaining bytes fails with EncodingError. -/
theorem C2_decode_signature_strict :
    (∀ (hi lo : Nat) (payload : List Nat), hi < 256 → lo < 256 →
      256 * hi + lo = payload.length →
      decode_signature (DS_SHA256 :: DS_ECDSA :: hi :: lo :: payload) =
        .ok payload) ∧
    (∀ input : List Nat, input.length < 2 →
      decode_signature input = .error .EncodingError) ∧
    (∀ (b0 b1 : Nat) (rest : List Nat), b0 ≠ DS_SHA256 ∨ b1 ≠ DS_ECDSA →
      decode_signature (b0 :: b1 :: rest) = .error .EncodingError) ∧
    (∀ (hi lo : Nat) (payload : List Nat), 256 * hi + lo ≠ payload.length →
      decode_signature (DS_SHA256 :: DS_ECDSA :: hi :: lo :: payload) =
        .error .EncodingError) := by
  refine ⟨?_, ?_, ?_, ?_⟩
  · intro hi lo payload hhi hlo hlen
    simp [decode_signature, DS_SHA256, DS_ECDSA, ← hlen]
  · intro input h
    have h2 : (input.take 2).length ≠ 2 := by
      rw [List.length_take]; omega
    simp [decode_signature, h2]
    intro h3
    exact absurd h3 (by omega)
  · intro b0 b1 rest h
    simp only [DS_SHA256, DS_ECDSA] at h
    rcases h with h | h <;> simp [decode_signature, DS_SHA256, DS_ECDSA] <;>
      intro h1 h2
    · exact absurd h1 h
    · exact absurd h2 h
  · intro hi lo payload h
    have h' : payload.length ≠ 256 * hi + lo := fun he => h he.symm
    simp [decode_signature, DS_SHA256, DS_ECDSA, h']

/-- Witness for C2 at concrete inputs: a 3-byte payload with length prefix
`0x0003` decodes to the payload; the 1-byte input fails; wrong tags fail;
an off-by-one declared length fails. -/
theorem C2_decode_signature_strict_witness :
    decode_signature [DS_SHA256, DS_ECDSA, 0, 3, 10, 11, 12] =
      .ok [10, 11, 12] ∧
    decode_signature [DS_SHA256] = .error .EncodingError ∧
    decode_signature [5, 3, 0, 0] = .error .EncodingError ∧
    decode_signature [DS_SHA256, DS_ECDSA, 0, 2, 10, 11, 12] =
      .error .EncodingError :=
  ⟨C2_decode_signature_strict.1 0 3 [10, 11, 12] (by decide) (by decide) rfl,
   C2_decode_signature_strict.2.1 [DS_SHA256] (by decide),
   C2_decode_signature_strict.2.2.1 5 3 [0, 0] (Or.inl (by decide)),
   C2_decode_signature_strict.2.2.2 0 2 [10, 11, 12] (by decide)⟩

/-- C10: `decode_signature` accepts a zero-length inner signature: the
exact 4-byte input of the two correct algorithm tags followed by a zero
length prefix decodes successfully to the empty byte string. -/
theorem C10_zero_length_inner_signature :
    decode_signature [DS_SHA256, DS_ECDSA, 0, 0] = .ok [] := by
  rfl

/-- Each run of `be_bytes` is exactly `k` bytes. -/
lemma be_bytes_length (k n : Nat) : (be_bytes k n).length = k := by
  simp [be_bytes]

/-- On a 32-byte string the `32s` conversion is the identity. -/
lemma pack32s_of_len32 (s : List Nat) (h : s.length = 32) : pack32s s = s := by
  unfold pack32s
  rw [List.take_of_length_le (by omega), h]
  simp

/-- C3: on a record whose root hash is exactly 32 bytes,
`encode_sth_input` produces exactly the 50-byte big-endian record of
version tag, tree-head tag, 8-byte timestamp, 8-byte tree size and the
32-byte root hash; on any other root-hash length it fails with
EncodingError, and that check precedes any cryptographic operation (the
failure is decided before the bound key's verification routine could ever
be consulted). -/
theorem C3_encode_sth_input_exact (sth : SthResponse) :
    (sth.sha256_root_hash.length = 32 →
      encode_sth_input sth =
        .ok ([V1, TREE_HEAD] ++ be_bytes 8 sth.timestamp ++
          be_bytes 8 sth.tree_size ++ sth.sha256_root_hash) ∧
      ∀ out, encode_sth_input sth = .ok out → out.length = 50) ∧
    (sth.sha256_root_hash.length ≠ 32 →
      encode_sth_input sth = .error .EncodingError ∧
      ∀ pubkey_verify : EcdsaVerify,
        verify_sth pubkey_verify sth = .error .EncodingError) := by
  constructor
  · intro h
    have henc : encode_sth_input sth =
        .ok ([V1, TREE_HEAD] ++ be_bytes 8 sth.timestamp ++
          be_bytes 8 sth.tree_size ++ sth.sha256_root_hash) := by
      simp [encode_sth_input, h, pack32s_of_len32 _ h]
    refine ⟨henc, ?_⟩
    intro out hout
    rw [henc] at hout
    cases hout
    simp [be_bytes_length, h]
  · intro h
    have henc : encode_sth_input sth = .error .EncodingError := by
      simp [encode_sth_input, h]
    refine ⟨henc, ?_⟩
    intro pubkey_verify
    simp [verify_sth, henc, returns_true_or_raises]

/-- Witness for C3: a record with a 32-byte root hash of zeros encodes to
the expected 50-byte record, and a record with a 1-byte root hash fails
with EncodingError without consulting the verification routine. -/
theorem C3_encode_sth_input_exact_witness :
    encode_sth_input ⟨2, 3, List.replicate 32 0, []⟩ =
      .ok ([V1, TREE_HEAD] ++ be_bytes 8 2 ++ be_bytes 8 3 ++
        List.replicate 32 0) ∧
    encode_sth_input ⟨2, 3, [7], []⟩ = .error .EncodingError ∧
    verify_sth (fun _ _ => .ok true) ⟨2, 3, [7], []⟩ =
      .error .EncodingError :=
  ⟨((C3_encode_sth_input_exact ⟨2, 3, List.replicate 32 0, []⟩).1
      (by decide)).1,
   ((C3_encode_sth_input_exact ⟨2, 3, [7], []⟩).2 (by decide)).1,
   ((C3_encode_sth_input_exact ⟨2, 3, [7], []⟩).2 (by decide)).2
     (fun _ _ => .ok true)⟩

/-- C5: `verify_sth` runs canonical-input encoding, then signature
decoding, then cryptographic verification, each stage's failure
short-circuiting the rest with its own error kind: a record with a
root-hash length other than 32 fails with EncodingError whatever its
signature bytes and whatever the verification routine; a decode failure
propagates unchanged whatever the verification routine; and when both
stages succeed the outcome is exactly the verification routine applied to
the encoded input and decoded signature. -/
theorem C5_verify_sth_stage_order (pubkey_verify : EcdsaVerify)
    (sth : SthResponse) :
    (sth.sha256_root_hash.length ≠ 32 →
      ∀ (g : EcdsaVerify) (sig : List Nat),
        verify_sth g { sth with tree_head_signature := sig } =
          .error .EncodingError) ∧
    (∀ inp, encode_sth_input sth = .ok inp →
      (∀ e, decode_signature sth.tree_head_signature = .error e →
        ∀ g : EcdsaVerify, verify_sth g sth = .error e) ∧
      (∀ s, decode_signature sth.tree_head_signature = .ok s →
        verify_sth pubkey_verify sth =
          returns_true_or_raises (pubkey_verify inp s))) := by
  constructor
  · intro h g sig
    have henc : encode_sth_input { sth with tree_head_signature := sig } =
        .error .EncodingError := by
      simp [encode_sth_input, h]
    simp [verify_sth, henc, returns_true_or_raises]
  · intro inp hinp
    constructor
    · intro e hdec g
      simp [verify_sth, hinp, hdec, returns_true_or_raises]
    · intro s hdec
      simp [verify_sth, hinp, hdec]

/-- Witness for C5: on a record with a 32-byte root hash and a malformed
signature container, the decode failure propagates unchanged for an
always-succeeding verification routine. -/
theorem C5_verify_sth_stage_order_witness :
    verify_sth (fun _ _ => .ok true) ⟨2, 3, List.replicate 32 0, [9]⟩ =
      .error .EncodingError :=
  ((C5_verify_sth_stage_order (fun _ _ => .ok true)
      ⟨2, 3, List.replicate 32 0, [9]⟩).2
    ([V1, TREE_HEAD] ++ be_bytes 8 2 ++ be_bytes 8 3 ++ List.replicate 32 0)
    (by simp [encode_sth_input, pack32s_of_len32])).1
    .EncodingError (by rfl) (fun _ _ => .ok true)

/-- C4: `verify_sth_consistency` runs the temporal-consistency check
first; when it fails, the whole call fails with the temporal check's error
and the outcome is independent of the Merkle verifier (it is never
consulted); when it succeeds, the Merkle verifier is applied to exactly
`(old.tree_size, new.tree_size, old.root_hash, new.root_hash, proof)` and
its failure propagates unchanged while its success yields success — in
particular, an always-failing stub makes temporally-consistent inputs fail
with ProofError. -/
theorem C4_consistency_delegation (merkle_verify : MerkleVerify)
    (old_sth new_sth : SthResponse) (proof : List (List Nat)) :
    (∀ e, verify_sth_temporal_consistency old_sth new_sth = .error e →
      verify_sth_consistency merkle_verify old_sth new_sth proof =
        .error e ∧
      ∀ g : MerkleVerify, verify_sth_consistency g old_sth new_sth proof =
        verify_sth_consistency merkle_verify old_sth new_sth proof) ∧
    (verify_sth_temporal_consistency old_sth new_sth = .ok true →
      (∀ e, merkle_verify old_sth.tree_size new_sth.tree_size
          old_sth.sha256_root_hash new_sth.sha256_root_hash proof =
            .error e →
        verify_sth_consistency merkle_verify old_sth new_sth proof =
          .error e) ∧
      (∀ b, merkle_verify old_sth.tree_size new_sth.tree_size
          old_sth.sha256_root_hash new_sth.sha256_root_hash proof = .ok b →
        verify_sth_consistency merkle_verify old_sth new_sth proof =
          .ok true) ∧
      verify_sth_consistency alwaysFailMerkle old_sth new_sth proof =
        .error .ProofError) := by
  constructor
  · intro e h
    constructor
    · simp [verify_sth_consistency, h, returns_true_or_raises]
    · intro g
      simp [verify_sth_consistency, h, returns_true_or_raises]
  · intro h
    refine ⟨?_, ?_, ?_⟩
    · intro e hm
      simp [verify_sth_consistency, h, hm, returns_true_or_raises]
    · intro b hm
      simp [verify_sth_consistency, h, hm, returns_true_or_raises]
    · simp [verify_sth_consistency, h, alwaysFailMerkle,
        returns_true_or_raises]

/-- Witness for C4: on temporally-consistent STHs the always-failing stub
makes the full consistency check fail with ProofError. -/
theorem C4_consistency_delegation_witness :
    verify_sth_consistency alwaysFailMerkle ⟨1, 1, [], []⟩ ⟨2, 2, [], []⟩
      [] = .error .ProofError :=
  ((C4_consistency_delegation alwaysFailMerkle ⟨1, 1, [], []⟩
      ⟨2, 2, [], []⟩ []).2 (by rfl)).2.2

/-- Proposition that the decorated outcome is success-or-raise: the
`returns_true_or_raises` wrapper never yields a false-equivalent value. -/
lemma returns_true_or_raises_total (r : Except VError Bool) :
    returns_true_or_raises r = .ok true ∨
      ∃ e, returns_true_or_raises r = .error e := by
  rcases r with e | b
  · exact Or.inr ⟨e, rfl⟩
  · cases b
    · exact Or.inr ⟨.RuntimeError, rfl⟩
    · exact Or.inl rfl

/-- C7: every public verification entry point — `verify_sth`,
`verify_sth_temporal_consistency` and `verify_sth_consistency` — either
returns the success value `True` or raises a specific failure kind; no
code path yields a false-equivalent return value. -/
theorem C7_success_or_raise (pubkey_verify : EcdsaVerify)
    (merkle_verify : MerkleVerify) (old_sth new_sth sth : SthResponse)
    (proof : List (List Nat)) :
    (verify_sth pubkey_verify sth = .ok true ∨
      ∃ e, verify_sth pubkey_verify sth = .error e) ∧
    (verify_sth_temporal_consistency old_sth new_sth = .ok true ∨
      ∃ e, verify_sth_temporal_consistency old_sth new_sth = .error e) ∧
    (verify_sth_consistency merkle_verify old_sth new_sth proof =
        .ok true ∨
      ∃ e, verify_sth_consistency merkle_verify old_sth new_sth proof =
        .error e) :=
  ⟨returns_true_or_raises_total _, returns_true_or_raises_total _,
    returns_true_or_raises_total _⟩

/-- C6: `LogVerifier` construction rejects any declared key type other
than ECDSA with UnsupportedAlgorithmError before any key decoding is
attempted (the outcome is independent of both decoders); with the ECDSA
key type, a failure of the textual key-block decode propagates as a
key-decode error, a failure to parse the decoded DER bytes raises the
key-decode error kind, and every possible construction failure is either
UnsupportedAlgorithmError or a key-decode error. -/
theorem C6_construction_errors (key_type : Nat) (pem_key : List Nat)
    (from_pem : List Nat → Except VError (List Nat))
    (from_der : List Nat → Except VError Unit)
    (hpem : ∀ e, from_pem pem_key = .error e → e = .PemError) :
    (key_type ≠ KeyInfoECDSA →
      ∀ (fp : List Nat → Except VError (List Nat))
        (fd : List Nat → Except VError Unit),
        LogVerifier.init key_type pem_key fp fd =
          .error .UnsupportedAlgorithmError) ∧
    (key_type = KeyInfoECDSA →
      (∀ e, from_pem pem_key = .error e →
        LogVerifier.init key_type pem_key from_pem from_der = .error e ∧
        isKeyDecodeError e = true) ∧
      (∀ der, from_pem pem_key = .ok der →
        ∀ e, from_der der = .error e →
          LogVerifier.init key_type pem_key from_pem from_der =
            .error .EncodingError ∧
          isKeyDecodeError .EncodingError = true)) ∧
    (∀ e, LogVerifier.init key_type pem_key from_pem from_der = .error e →
      e = .UnsupportedAlgorithmError ∨ isKeyDecodeError e = true) := by
  refine ⟨?_, ?_, ?_⟩
  · intro h fp fd
    simp [LogVerifier.init, h]
  · intro h
    constructor
    · intro e he
      refine ⟨by simp [LogVerifier.init, h, he], ?_⟩
      rw [hpem e he]
      rfl
    · intro der hder e he
      exact ⟨by simp [LogVerifier.init, h, hder, he], rfl⟩
  · intro e he
    unfold LogVerifier.init at he
    by_cases h : key_type ≠ KeyInfoECDSA
    · rw [if_pos h] at he
      exact Or.inl (Except.error.inj he).symm
    · rw [if_neg h] at he
      rcases hp : from_pem pem_key with e' | der
      · rw [hp] at he
        right
        rw [← (Except.error.inj he), hpem e' hp]
        rfl
      · rw [hp] at he
        dsimp only at he
        rcases hd : from_der der with e'' | u
        · rw [hd] at he
          right
          rw [← (Except.error.inj he)]
          rfl
        · rw [hd] at he
          exact absurd he (by simp)

/-- Witness for C6: with the ECDSA key type and a PEM decoder failing with
PemError, construction fails with that same error, which is of the
key-decode kind. -/
theorem C6_construction_errors_witness :
    LogVerifier.init KeyInfoECDSA [] (fun _ => .error .PemError)
        (fun _ => .ok ()) = .error .PemError ∧
    isKeyDecodeError .PemError = true :=
  ((C6_construction_errors KeyInfoECDSA [] (fun _ => .error .PemError)
      (fun _ => .ok ())
      (fun _ h => (Except.error.inj h).symm)).2.1 rfl).1
    .PemError rfl

end CT
